import Mathlib

/-!
Shallow embedding of the EV-charger electrical sizing calculator
(`src/electrical_specs.py` and `src/charger_specs.py`).

Numbers are modelled as exact rationals (`ℚ`).  Python's `math.sqrt(3)` is a
floating-point approximation of the irrational √3; the embedding passes that
value as an explicit parameter `s3 : ℚ`, and concrete evaluations instantiate
it with `sqrt3f`, the decimal value printed for the IEEE-754 double
`math.sqrt(3)`.  Python's `round(x, 1)` (round to one decimal, ties to even)
is modelled by `round1`.  Fallible selection (`next(..., None)`) is modelled
with `Option`; a Python function returning `None` becomes `none`.
-/

/-- Round a rational to the nearest integer, ties to even
(the semantics of Python's built-in `round`). -/
def pyRound (x : ℚ) : ℤ :=
  if Int.fract x = 1/2 then 2 * round (x/2) else round x

/-- Python's `round(x, 1)`: round to one decimal place, ties to even. -/
def round1 (x : ℚ) : ℚ :=
  (pyRound (x * 10) : ℚ) / 10

/-- `STANDARD_BREAKERS` (identical in both source files). -/
def STANDARD_BREAKERS : List ℚ :=
  [6, 10, 16, 20, 25, 32, 40, 50, 63, 80, 100, 125, 160, 200,
   250, 315, 400, 500, 630, 800, 1000, 1200, 1600, 2000]

/-- `CABLE_CAPACITY["1C"]` as a (cross-section, ampacity) association list in
ascending key order (Python's `sorted(....items())`). -/
def CABLE_1C : List (ℚ × ℚ) :=
  [(1.5, 17.5), (2.5, 23), (4, 30), (6, 39), (10, 53), (16, 70), (25, 92),
   (35, 115), (50, 142), (70, 179), (95, 217), (120, 254), (150, 292),
   (185, 336), (240, 392), (300, 451), (400, 527), (500, 600), (630, 696)]

/-- `CABLE_CAPACITY["2C"]`. -/
def CABLE_2C : List (ℚ × ℚ) :=
  [(1.5, 15), (2.5, 20), (4, 26), (6, 34), (10, 46), (16, 61), (25, 80),
   (35, 99), (50, 123), (70, 155), (95, 189), (120, 221), (150, 255),
   (185, 292), (240, 352), (300, 409), (400, 489), (500, 569), (630, 674)]

/-- `CABLE_CAPACITY["3C"]`. -/
def CABLE_3C : List (ℚ × ℚ) :=
  [(1.5, 13.5), (2.5, 17.5), (4, 23), (6, 30), (10, 40), (16, 53), (25, 70),
   (35, 87), (50, 108), (70, 136), (95, 166), (120, 194), (150, 225),
   (185, 260), (240, 310), (300, 360), (400, 429), (500, 495), (630, 588)]

/-- `CABLE_CAPACITY["4C"]`. -/
def CABLE_4C : List (ℚ × ℚ) :=
  [(1.5, 12), (2.5, 16), (4, 21), (6, 27), (10, 37), (16, 49), (25, 64),
   (35, 80), (50, 99), (70, 125), (95, 152), (120, 178), (150, 207),
   (185, 240), (240, 287), (300, 334), (400, 400), (500, 464), (630, 555)]

/-- The `CABLE_CAPACITY` dict, keyed by core-configuration string.  The two
source files use only the keys "1C".."4C"; the final branch plays the role of
the "4C" entry. -/
def CABLE_CAPACITY (cores : String) : List (ℚ × ℚ) :=
  if cores = "1C" then CABLE_1C
  else if cores = "2C" then CABLE_2C
  else if cores = "3C" then CABLE_3C
  else CABLE_4C

/-- One entry of `MSB_CONFIGS` (keys `Amps`, `Dimensions`, `Busbar`). -/
structure MsbConfig where
  amps : ℚ
  dims : String
  busbar : ℚ
deriving Repr

/-- `MSB_CONFIGS` (identical data in both source files). -/
def MSB_CONFIGS : List MsbConfig :=
  [⟨100, "300x200x150", 100⟩, ⟨200, "400x250x200", 200⟩,
   ⟨400, "600x300x250", 400⟩, ⟨600, "800x400x300", 600⟩,
   ⟨800, "1000x500x350", 800⟩, ⟨1000, "1200x600x400", 1000⟩,
   ⟨1200, "1500x700x450", 1200⟩, ⟨1600, "1800x800x500", 1600⟩,
   ⟨2000, "2000x1000x600", 2000⟩, ⟨2500, "2200x1200x700", 2500⟩,
   ⟨3000, "2500x1500x800", 3000⟩]

/-- Python dict lookup `d[k]` on an association list.  Every use in the
sources is at a key present in the table, so the default `0` is never
reached. -/
def dictLookup (l : List (ℚ × ℚ)) (k : ℚ) : ℚ :=
  ((l.find? fun kv => decide (kv.1 = k)).map Prod.snd).getD 0

/-- Decimal value printed for the IEEE-754 double `math.sqrt(3)`; the concrete
stand-in for the `s3` parameter in concrete evaluations. -/
def sqrt3f : ℚ := 1.7320508075688772

/-- The phase label (both source files): "Single" for 7 kW AC, "Three" for
other AC, "DC" for DC. -/
def phase (ct : String) (cap : ℚ) : String :=
  if ct = "AC" then (if cap = 7 then "Single" else "Three") else "DC"

/-- The core configuration (both source files): 2C for single-phase AC,
4C for three-phase AC, 2C for DC. -/
def cores (ct : String) (cap : ℚ) : String :=
  if ct = "AC" then (if cap = 7 then "2C" else "4C") else "2C"

namespace ChargerSpecs

/-- `st.session_state.calculation_params` of `charger_specs.py`. -/
structure CalcParams where
  safety_factor : ℚ
  diversity_factor : ℚ
  dc_efficiency : ℚ
  power_factor : ℚ
  ac_voltage : ℚ
  dc_voltage : ℚ
deriving Repr

/-- The default parameter values set by `initialize_session_state`. -/
def defaultParams : CalcParams :=
  { safety_factor := 1.25, diversity_factor := 0.9, dc_efficiency := 0.95,
    power_factor := 0.95, ac_voltage := 400, dc_voltage := 500 }

/-- The `voltage` local of `calculate_requirements` (charger_specs.py
lines 59-75). -/
def voltage (p : CalcParams) (ct : String) (cap : ℚ) : ℚ :=
  if ct = "AC" then (if cap = 7 then 230 else p.ac_voltage) else p.dc_voltage

/-- The `current` local of `calculate_requirements`: load current before
derating. -/
def current (s3 : ℚ) (p : CalcParams) (ct : String) (cap : ℚ) : ℚ :=
  if ct = "AC" then
    if cap = 7 then cap * 1000 / 230
    else cap * 1000 / (p.ac_voltage * s3)
  else cap * 1000 / p.dc_voltage

/-- The `ac_power` local (DC branch): AC-side input power. -/
def ac_power (p : CalcParams) (cap : ℚ) : ℚ :=
  cap / (p.dc_efficiency * p.power_factor)

/-- The `ac_current` local: equals `current` for AC chargers; for DC chargers
the AC-side input current of the rectifier front end. -/
def ac_current (s3 : ℚ) (p : CalcParams) (ct : String) (cap : ℚ) : ℚ :=
  if ct = "AC" then current s3 p ct cap
  else ac_power p cap * 1000 / (p.ac_voltage * s3)

/-- The `derated_current` local: load current times the safety factor. -/
def derated_current (s3 : ℚ) (p : CalcParams) (ct : String) (cap : ℚ) : ℚ :=
  current s3 p ct cap * p.safety_factor

/-- The `derated_ac_current` local. -/
def derated_ac_current (s3 : ℚ) (p : CalcParams) (ct : String) (cap : ℚ) : ℚ :=
  ac_current s3 p ct cap * p.safety_factor

/-- The `breaker_spec` local: display string for the protective device. -/
def breaker_spec (p : CalcParams) (ct : String) (cap : ℚ) (b : ℚ) : String :=
  if ct = "AC" then
    if cap = 7 then "AS/NZS 60898, C-curve, " ++ toString b ++ "A, 240V AC, 1P"
    else "AS/NZS 60898, C-curve, " ++ toString b ++ "A, " ++
      toString p.ac_voltage ++ "V AC, 3P"
  else "AS/NZS 60947.2, " ++ toString b ++ "A, " ++
    toString (voltage p ct cap) ++ "V DC"

/-- The result dict of `charger_specs.calculate_requirements`. -/
structure CircuitDesign where
  voltage : ℚ
  phase : String
  fullLoadCurrent : ℚ
  deratedCurrent : ℚ
  acInputCurrent : ℚ
  deratedAcCurrent : ℚ
  breakerSize : ℚ
  breakerSpecs : String
  cableSize : ℚ
  cableType : String
  cableCapacity : ℚ
  cableConfiguration : String
  power : ℚ
  chargerType : String
deriving Repr

/-- `charger_specs.calculate_requirements(charger_type, capacity, quantity,
params)`.  The `quantity` argument is not used in the function body (the
caller stores quantity separately), so it is omitted here.  `None` returns
(breaker or cable not found) become `none`. -/
def calculate_requirements (s3 : ℚ) (p : CalcParams) (ct : String) (cap : ℚ) :
    Option CircuitDesign :=
  (STANDARD_BREAKERS.find? fun b =>
      decide (derated_current s3 p ct cap ≤ b)).bind fun b =>
    ((CABLE_CAPACITY (cores ct cap)).find? fun sa =>
        decide (b ≤ sa.2)).map fun sa =>
      { voltage := voltage p ct cap
        phase := phase ct cap
        fullLoadCurrent := round1 (current s3 p ct cap)
        deratedCurrent := round1 (derated_current s3 p ct cap)
        acInputCurrent := round1 (ac_current s3 p ct cap)
        deratedAcCurrent := round1 (derated_ac_current s3 p ct cap)
        breakerSize := b
        breakerSpecs := breaker_spec p ct cap b
        cableSize := sa.1
        cableType := cores ct cap ++ " PVC/XLPE Cu"
        cableCapacity := dictLookup (CABLE_CAPACITY (cores ct cap)) sa.1
        cableConfiguration := cores ct cap
        power := cap
        chargerType := ct }

/-- The fields of a stored charger entry that `calculate_msb` reads:
`"Derated AC Current (A)"`, `"Power (kW)"` and `"Quantity"`. -/
structure ChargerEntry where
  deratedAcCurrent : ℚ
  power : ℚ
  quantity : ℕ
deriving Repr

/-- How the app builds a stored charger entry from a sizing result (the
`st.session_state.chargers.append({... , **result})` call). -/
def entryOf (d : CircuitDesign) (qty : ℕ) : ChargerEntry :=
  { deratedAcCurrent := d.deratedAcCurrent, power := d.power, quantity := qty }

/-- The `total_derated_ac_current` local of `calculate_msb`:
sum of stored derated AC current times quantity. -/
def msbTotal (chargers : List ChargerEntry) : ℚ :=
  (chargers.map fun c => c.deratedAcCurrent * (c.quantity : ℚ)).sum

/-- The `total_power` local of `calculate_msb`. -/
def msbTotalPower (chargers : List ChargerEntry) : ℚ :=
  (chargers.map fun c => c.power * (c.quantity : ℚ)).sum

/-- The `diversified_current` local of `calculate_msb`. -/
def diversified_current (p : CalcParams) (chargers : List ChargerEntry) : ℚ :=
  msbTotal chargers * p.diversity_factor

/-- The result dict of `calculate_msb`. -/
structure MsbResult where
  totalConnectedLoad : ℚ
  totalDeratedAcCurrent : ℚ
  diversificationFactor : ℚ
  diversifiedCurrent : ℚ
  mainBreakerSize : ℚ
  recommendedMsbSize : ℚ
  busbarRating : ℚ
  msbDimensions : String
  msbConfiguration : String
deriving Repr

/-- `charger_specs.calculate_msb(chargers, params)`. -/
def calculate_msb (p : CalcParams) (chargers : List ChargerEntry) :
    Option MsbResult :=
  (STANDARD_BREAKERS.find? fun b =>
      decide (diversified_current p chargers ≤ b)).bind fun mb =>
    (MSB_CONFIGS.find? fun cfg =>
        decide (diversified_current p chargers ≤ cfg.busbar)).map fun cfg =>
      { totalConnectedLoad := round1 (msbTotalPower chargers)
        totalDeratedAcCurrent := round1 (msbTotal chargers)
        diversificationFactor := p.diversity_factor
        diversifiedCurrent := round1 (diversified_current p chargers)
        mainBreakerSize := mb
        recommendedMsbSize := cfg.amps
        busbarRating := (⌈diversified_current p chargers / 100⌉ : ℚ) * 100
        msbDimensions := cfg.dims
        msbConfiguration := toString cfg.amps ++ "A Main Switchboard" }

/-- Sizing a whole list of (type, capacity, quantity) requests and collecting
the stored entries, as the app's add-charger loop does; fails if any single
sizing fails. -/
def sizeAll (s3 : ℚ) (p : CalcParams) :
    List (String × ℚ × ℕ) → Option (List ChargerEntry)
  | [] => some []
  | spec :: rest =>
    (calculate_requirements s3 p spec.1 spec.2.1).bind fun d =>
      (sizeAll s3 p rest).map fun es => entryOf d spec.2.2 :: es

end ChargerSpecs

namespace ElectricalSpecs

/-- `VOLTAGE["AC"]` of `electrical_specs.py`. -/
def VOLTAGE_AC : List (ℚ × ℚ) := [(7, 230), (22, 400)]

/-- `VOLTAGE["DC"]` of `electrical_specs.py`: 500 V up to 150 kW, 750 V for
300 and 350 kW. -/
def VOLTAGE_DC : List (ℚ × ℚ) :=
  [(25, 500), (50, 500), (75, 500), (100, 500), (120, 500), (150, 500),
   (300, 750), (350, 750)]

/-- `VOLTAGE["DC"][capacity]`: `none` models the `KeyError` Python raises for
a capacity outside the menu (unreachable through the UI select box). -/
def dc_voltage (cap : ℚ) : Option ℚ :=
  (VOLTAGE_DC.find? fun kv => decide (kv.1 = cap)).map Prod.snd

/-- The `voltage` local of `electrical_specs.calculate_requirements`
(lines 49-68); the AC lookups are at the literal keys 7 and 22. -/
def voltageSel (ct : String) (cap : ℚ) : Option ℚ :=
  if ct = "AC" then
    some (if cap = 7 then dictLookup VOLTAGE_AC 7 else dictLookup VOLTAGE_AC 22)
  else dc_voltage cap

/-- The `current` local, given the resolved voltage `v`. -/
def current (s3 : ℚ) (ct : String) (cap : ℚ) (v : ℚ) : ℚ :=
  if ct = "AC" then
    if cap = 7 then cap * 1000 / v
    else cap * 1000 / (v * s3)
  else cap * 1000 / v

/-- The `ac_current` local: for DC chargers always computed from the fixed
constants 0.95 efficiency, 0.95 power factor and 400 V three-phase input
(lines 70-73). -/
def ac_current (s3 : ℚ) (ct : String) (cap : ℚ) (v : ℚ) : ℚ :=
  if ct = "AC" then current s3 ct cap v
  else (cap / (0.95 * 0.95)) * 1000 / (400 * s3)

/-- The `breaker_spec` local of `electrical_specs.calculate_requirements`
(lines 100-107); 415 V is hardcoded for three-phase AC. -/
def breaker_spec (ct : String) (cap : ℚ) (b v : ℚ) : String :=
  if ct = "AC" then
    if cap = 7 then "AS/NZS 60898, C-curve, " ++ toString b ++ "A, 240V AC, 1P"
    else "AS/NZS 60898, C-curve, " ++ toString b ++ "A, 415V AC, 3P"
  else "AS/NZS 60947.2, " ++ toString b ++ "A, " ++ toString v ++ "V DC"

/-- The result dict of `electrical_specs.calculate_requirements`; its
`"Cable Size"` entry is the display string `f"{cable_size} mm²"`. -/
structure CircuitDesign where
  voltage : ℚ
  phase : String
  fullLoadCurrent : ℚ
  deratedCurrent : ℚ
  acInputCurrent : ℚ
  deratedAcCurrent : ℚ
  breakerSize : ℚ
  breakerSpecs : String
  cableSize : String
  cableType : String
  cableCapacity : ℚ
  cableConfiguration : String
  power : ℚ
  chargerType : String
deriving Repr

/-- `electrical_specs.calculate_requirements(charger_type, capacity,
quantity)`: hardcoded 1.25 safety factor, breaker then cable selection.  The
unused `quantity` argument is omitted.  The cable loop sets `cable_capacity`
directly from the matching table row. -/
def calculate_requirements (s3 : ℚ) (ct : String) (cap : ℚ) :
    Option CircuitDesign :=
  (voltageSel ct cap).bind fun v =>
    (STANDARD_BREAKERS.find? fun b =>
        decide (current s3 ct cap v * 1.25 ≤ b)).bind fun b =>
      ((CABLE_CAPACITY (cores ct cap)).find? fun sa =>
          decide (b ≤ sa.2)).map fun sa =>
        { voltage := v
          phase := phase ct cap
          fullLoadCurrent := round1 (current s3 ct cap v)
          deratedCurrent := round1 (current s3 ct cap v * 1.25)
          acInputCurrent :=
            if ct = "DC" then round1 (ac_current s3 ct cap v)
            else round1 (current s3 ct cap v)
          deratedAcCurrent :=
            if ct = "DC" then round1 (ac_current s3 ct cap v * 1.25)
            else round1 (current s3 ct cap v * 1.25)
          breakerSize := b
          breakerSpecs := breaker_spec ct cap b v
          cableSize := toString sa.1 ++ " mm²"
          cableType := cores ct cap ++ " PVC/XLPE Cu"
          cableCapacity := sa.2
          cableConfiguration := cores ct cap
          power := cap
          chargerType := ct }

/-- `electrical_specs.calculate_msb(chargers)`: same aggregation as
`charger_specs` but with the diversity factor fixed at 0.9. -/
def calculate_msb (chargers : List ChargerSpecs.ChargerEntry) :
    Option ChargerSpecs.MsbResult :=
  (STANDARD_BREAKERS.find? fun b =>
      decide (ChargerSpecs.msbTotal chargers * 0.9 ≤ b)).bind fun mb =>
    (MSB_CONFIGS.find? fun cfg =>
        decide (ChargerSpecs.msbTotal chargers * 0.9 ≤ cfg.busbar)).map fun cfg =>
      { totalConnectedLoad := round1 (ChargerSpecs.msbTotalPower chargers)
        totalDeratedAcCurrent := round1 (ChargerSpecs.msbTotal chargers)
        diversificationFactor := 0.9
        diversifiedCurrent := round1 (ChargerSpecs.msbTotal chargers * 0.9)
        mainBreakerSize := mb
        recommendedMsbSize := cfg.amps
        busbarRating := (⌈ChargerSpecs.msbTotal chargers * 0.9 / 100⌉ : ℚ) * 100
        msbDimensions := cfg.dims
        msbConfiguration := toString cfg.amps ++ "A Main Switchboard" }

end ElectricalSpecs

/-! Concrete records used in witnesses and counterexamples (values obtained by
evaluating the embedded functions at the stated inputs). -/

namespace ChargerSpecs

/-- Sizing result for an AC 7 kW charger at the default parameters. -/
def dAC7 : CircuitDesign :=
  { voltage := 230, phase := "Single", fullLoadCurrent := 152/5,
    deratedCurrent := 38, acInputCurrent := 152/5, deratedAcCurrent := 38,
    breakerSize := 40,
    breakerSpecs := "AS/NZS 60898, C-curve, 40A, 240V AC, 1P",
    cableSize := 10, cableType := "2C PVC/XLPE Cu", cableCapacity := 46,
    cableConfiguration := "2C", power := 7, chargerType := "AC" }

/-- Sizing result for a DC 25 kW charger at the default parameters. -/
def dDC25 : CircuitDesign :=
  { voltage := 500, phase := "DC", fullLoadCurrent := 50,
    deratedCurrent := 125/2, acInputCurrent := 40, deratedAcCurrent := 50,
    breakerSize := 63, breakerSpecs := "AS/NZS 60947.2, 63A, 500V DC",
    cableSize := 25, cableType := "2C PVC/XLPE Cu", cableCapacity := 80,
    cableConfiguration := "2C", power := 25, chargerType := "DC" }

/-- Sizing result for a DC 50 kW charger at the default parameters. -/
def dDC50 : CircuitDesign :=
  { voltage := 500, phase := "DC", fullLoadCurrent := 100,
    deratedCurrent := 125, acInputCurrent := 80, deratedAcCurrent := 100,
    breakerSize := 125, breakerSpecs := "AS/NZS 60947.2, 125A, 500V DC",
    cableSize := 70, cableType := "2C PVC/XLPE Cu", cableCapacity := 155,
    cableConfiguration := "2C", power := 50, chargerType := "DC" }

/-- Sizing result for a DC 100 kW charger at the default parameters. -/
def dDC100 : CircuitDesign :=
  { voltage := 500, phase := "DC", fullLoadCurrent := 200,
    deratedCurrent := 250, acInputCurrent := 1599/10,
    deratedAcCurrent := 1999/10, breakerSize := 250,
    breakerSpecs := "AS/NZS 60947.2, 250A, 500V DC",
    cableSize := 150, cableType := "2C PVC/XLPE Cu", cableCapacity := 255,
    cableConfiguration := "2C", power := 100, chargerType := "DC" }

/-- Aggregation result for the empty charger list. -/
def mEmpty : MsbResult :=
  { totalConnectedLoad := 0, totalDeratedAcCurrent := 0,
    diversificationFactor := 9/10, diversifiedCurrent := 0,
    mainBreakerSize := 6, recommendedMsbSize := 100, busbarRating := 0,
    msbDimensions := "300x200x150",
    msbConfiguration := "100A Main Switchboard" }

/-- Aggregation result for 23 AC 7 kW chargers at the default parameters. -/
def mAC7x23 : MsbResult :=
  { totalConnectedLoad := 161, totalDeratedAcCurrent := 874,
    diversificationFactor := 9/10, diversifiedCurrent := 3933/5,
    mainBreakerSize := 800, recommendedMsbSize := 800, busbarRating := 800,
    msbDimensions := "1000x500x350",
    msbConfiguration := "800A Main Switchboard" }

/-- Aggregation result for 15 AC 7 kW chargers at the default parameters. -/
def mAC7x15 : MsbResult :=
  { totalConnectedLoad := 105, totalDeratedAcCurrent := 570,
    diversificationFactor := 9/10, diversifiedCurrent := 513,
    mainBreakerSize := 630, recommendedMsbSize := 600, busbarRating := 600,
    msbDimensions := "800x400x300",
    msbConfiguration := "600A Main Switchboard" }

end ChargerSpecs

namespace ElectricalSpecs

/-- `electrical_specs` sizing result for an AC 7 kW charger. -/
def dAC7e : CircuitDesign :=
  { voltage := 230, phase := "Single", fullLoadCurrent := 152/5,
    deratedCurrent := 38, acInputCurrent := 152/5, deratedAcCurrent := 38,
    breakerSize := 40,
    breakerSpecs := "AS/NZS 60898, C-curve, 40A, 240V AC, 1P",
    cableSize := "10 mm²", cableType := "2C PVC/XLPE Cu", cableCapacity := 46,
    cableConfiguration := "2C", power := 7, chargerType := "AC" }

/-- `electrical_specs` sizing result for a DC 100 kW charger. -/
def dDC100e : CircuitDesign :=
  { voltage := 500, phase := "DC", fullLoadCurrent := 200,
    deratedCurrent := 250, acInputCurrent := 1599/10,
    deratedAcCurrent := 1999/10, breakerSize := 250,
    breakerSpecs := "AS/NZS 60947.2, 250A, 500V DC",
    cableSize := "150 mm²", cableType := "2C PVC/XLPE Cu",
    cableCapacity := 255, cableConfiguration := "2C", power := 100,
    chargerType := "DC" }

/-- `electrical_specs` sizing result for a DC 300 kW charger: the `VOLTAGE`
table resolves it to 750 V, so the load current is 400 A, not
300×1000/500 = 600 A. -/
def dDC300e : CircuitDesign :=
  { voltage := 750, phase := "DC", fullLoadCurrent := 400,
    deratedCurrent := 500, acInputCurrent := 2399/5,
    deratedAcCurrent := 5997/10, breakerSize := 500,
    breakerSpecs := "AS/NZS 60947.2, 500A, 750V DC",
    cableSize := "500 mm²", cableType := "2C PVC/XLPE Cu",
    cableCapacity := 569, cableConfiguration := "2C", power := 300,
    chargerType := "DC" }

/-- `electrical_specs` sizing result for a DC 150 kW charger (500 V side of
the `VOLTAGE` table split). -/
def dDC150e : CircuitDesign :=
  { voltage := 500, phase := "DC", fullLoadCurrent := 300,
    deratedCurrent := 375, acInputCurrent := 2399/10,
    deratedAcCurrent := 2999/10, breakerSize := 400,
    breakerSpecs := "AS/NZS 60947.2, 400A, 500V DC",
    cableSize := "300 mm²", cableType := "2C PVC/XLPE Cu",
    cableCapacity := 409, cableConfiguration := "2C", power := 150,
    chargerType := "DC" }

end ElectricalSpecs

/-! Generic lemmas about Python's `next(x for x in table if pred)` idiom:
first-match selection on a table sorted by a key. -/

/-- Every element of the table whose key is strictly below the key of the
first match fails the predicate. -/
theorem find?_min_key {α : Type} (k : α → ℚ) {p : α → Bool} :
    ∀ l : List α, (l.Pairwise fun x y => k x < k y) → ∀ b, l.find? p = some b →
      ∀ x ∈ l, k x < k b → p x = false := by
  intro l
  induction l with
  | nil => intro _ b hb; simp at hb
  | cons a t ih =>
    intro hl b hb x hx hxk
    cases hpa : p a with
    | false =>
      rw [List.find?_cons_of_neg _ (by simp [hpa])] at hb
      rcases List.mem_cons.mp hx with rfl | hxt
      · exact hpa
      · exact ih (List.pairwise_cons.mp hl).2 b hb x hxt hxk
    | true =>
      rw [List.find?_cons_of_pos _ hpa] at hb
      injection hb with hab
      subst hab
      rcases List.mem_cons.mp hx with rfl | hxt
      · exact absurd hxk (lt_irrefl _)
      · exact absurd hxk (not_lt.mpr (le_of_lt ((List.pairwise_cons.mp hl).1 x hxt)))

/-- Lowering the threshold of a `first value ≥ threshold` search on a sorted
ladder keeps it successful and can only lower the result. -/
theorem find?_ge_mono :
    ∀ l : List ℚ, l.Pairwise (· < ·) → ∀ i j bj : ℚ, i ≤ j →
      l.find? (fun x => decide (j ≤ x)) = some bj →
      ∃ bi, l.find? (fun x => decide (i ≤ x)) = some bi ∧ bi ≤ bj := by
  intro l
  induction l with
  | nil => intro _ i j bj _ h; simp at h
  | cons a t ih =>
    intro hl i j bj hij hj
    by_cases hja : j ≤ a
    · rw [List.find?_cons_of_pos _ (by simp [hja])] at hj
      injection hj with h
      subst h
      exact ⟨a, List.find?_cons_of_pos _ (by simp; linarith), le_refl a⟩
    · rw [List.find?_cons_of_neg _ (by simp [hja])] at hj
      by_cases hia : i ≤ a
      · refine ⟨a, List.find?_cons_of_pos _ (by simp [hia]), ?_⟩
        exact le_of_lt ((List.pairwise_cons.mp hl).1 bj (List.mem_of_find?_eq_some hj))
      · obtain ⟨bi, h1, h2⟩ := ih (List.pairwise_cons.mp hl).2 i j bj hij hj
        exact ⟨bi, by rw [List.find?_cons_of_neg _ (by simp [hia])]; exact h1, h2⟩

/-- On an association list with strictly increasing keys, searching for the
key of a member finds exactly that member. -/
theorem find?_key_self :
    ∀ l : List (ℚ × ℚ), (l.Pairwise fun x y => x.1 < y.1) →
      ∀ sa : ℚ × ℚ, sa ∈ l →
      (l.find? fun kv => decide (kv.1 = sa.1)) = some sa := by
  intro l
  induction l with
  | nil => intro _ sa h; simp at h
  | cons a t ih =>
    intro hl sa hm
    rcases List.mem_cons.mp hm with rfl | hmt
    · exact List.find?_cons_of_pos _ (by simp)
    · have hlt : a.1 < sa.1 := (List.pairwise_cons.mp hl).1 sa hmt
      rw [List.find?_cons_of_neg _ (by simp [hlt.ne])]
      exact ih (List.pairwise_cons.mp hl).2 sa hmt

/-- Dict lookup at the key of a member of a strictly-sorted association list
returns that member's value. -/
theorem dictLookup_mem {l : List (ℚ × ℚ)}
    (hl : l.Pairwise fun x y => x.1 < y.1) {sa : ℚ × ℚ} (hm : sa ∈ l) :
    dictLookup l sa.1 = sa.2 := by
  unfold dictLookup
  rw [find?_key_self l hl sa hm]
  rfl

/-- The breaker ladder is strictly increasing. -/
theorem breakers_sorted : STANDARD_BREAKERS.Pairwise (· < ·) := by decide

/-- Every standard breaker rating is at most 2000 A. -/
theorem breakers_le_2000 : ∀ b ∈ STANDARD_BREAKERS, b ≤ 2000 := by decide

/-- In every catalog entry the busbar rating equals the nominal rating. -/
theorem msb_busbar_eq_amps : ∀ cfg ∈ MSB_CONFIGS, cfg.busbar = cfg.amps := by
  decide

/-- A list whose adjacent keys increase is pairwise increasing in the key. -/
theorem pairwise_of_chain {α : Type} (k : α → ℚ) :
    ∀ l : List α, l.Chain' (fun x y => k x < k y) →
      l.Pairwise fun x y => k x < k y := by
  intro l
  induction l with
  | nil => simp
  | cons a t ih =>
    intro h
    cases t with
    | nil => simp
    | cons b u =>
      rw [List.chain'_cons] at h
      have hp := ih h.2
      refine List.pairwise_cons.mpr ⟨?_, hp⟩
      intro x hx
      rcases List.mem_cons.mp hx with rfl | hxu
      · exact h.1
      · exact lt_trans h.1 ((List.pairwise_cons.mp hp).1 x hxu)

/-- Every cable table is strictly increasing in cross-section. -/
theorem cable_sorted (s : String) :
    (CABLE_CAPACITY s).Pairwise fun x y => x.1 < y.1 := by
  apply pairwise_of_chain
  unfold CABLE_CAPACITY
  split_ifs <;>
    norm_num [CABLE_1C, CABLE_2C, CABLE_3C, CABLE_4C, List.chain'_cons]

/-- Inversion of a successful `charger_specs.calculate_requirements` run:
the breaker and cable searches succeeded, and the result dict is built from
their results. -/
theorem cs_cr_inversion {s3 : ℚ} {p : ChargerSpecs.CalcParams} {ct : String}
    {cap : ℚ} {d : ChargerSpecs.CircuitDesign}
    (h : ChargerSpecs.calculate_requirements s3 p ct cap = some d) :
    ∃ b sa,
      (STANDARD_BREAKERS.find? fun x =>
          decide (ChargerSpecs.derated_current s3 p ct cap ≤ x)) = some b ∧
      ((CABLE_CAPACITY (cores ct cap)).find? fun x =>
          decide (b ≤ x.2)) = some sa ∧
      d = { voltage := ChargerSpecs.voltage p ct cap
            phase := phase ct cap
            fullLoadCurrent := round1 (ChargerSpecs.current s3 p ct cap)
            deratedCurrent := round1 (ChargerSpecs.derated_current s3 p ct cap)
            acInputCurrent := round1 (ChargerSpecs.ac_current s3 p ct cap)
            deratedAcCurrent :=
              round1 (ChargerSpecs.derated_ac_current s3 p ct cap)
            breakerSize := b
            breakerSpecs := ChargerSpecs.breaker_spec p ct cap b
            cableSize := sa.1
            cableType := cores ct cap ++ " PVC/XLPE Cu"
            cableCapacity := dictLookup (CABLE_CAPACITY (cores ct cap)) sa.1
            cableConfiguration := cores ct cap
            power := cap
            chargerType := ct } := by
  unfold ChargerSpecs.calculate_requirements at h
  rw [Option.bind_eq_some] at h
  obtain ⟨b, hb, h2⟩ := h
  rw [Option.map_eq_some'] at h2
  obtain ⟨sa, hsa, hd⟩ := h2
  exact ⟨b, sa, hb, hsa, hd.symm⟩

/-- Inversion of a successful `charger_specs.calculate_msb` run. -/
theorem cs_msb_inversion {p : ChargerSpecs.CalcParams}
    {chargers : List ChargerSpecs.ChargerEntry} {m : ChargerSpecs.MsbResult}
    (h : ChargerSpecs.calculate_msb p chargers = some m) :
    ∃ mb cfg,
      (STANDARD_BREAKERS.find? fun x =>
          decide (ChargerSpecs.diversified_current p chargers ≤ x)) = some mb ∧
      (MSB_CONFIGS.find? fun cfg =>
          decide (ChargerSpecs.diversified_current p chargers ≤ cfg.busbar)) =
        some cfg ∧
      m = { totalConnectedLoad :=
              round1 (ChargerSpecs.msbTotalPower chargers)
            totalDeratedAcCurrent := round1 (ChargerSpecs.msbTotal chargers)
            diversificationFactor := p.diversity_factor
            diversifiedCurrent :=
              round1 (ChargerSpecs.diversified_current p chargers)
            mainBreakerSize := mb
            recommendedMsbSize := cfg.amps
            busbarRating :=
              (⌈ChargerSpecs.diversified_current p chargers / 100⌉ : ℚ) * 100
            msbDimensions := cfg.dims
            msbConfiguration := toString cfg.amps ++ "A Main Switchboard" } := by
  unfold ChargerSpecs.calculate_msb at h
  rw [Option.bind_eq_some] at h
  obtain ⟨mb, hmb, h2⟩ := h
  rw [Option.map_eq_some'] at h2
  obtain ⟨cfg, hcfg, hm⟩ := h2
  exact ⟨mb, cfg, hmb, hcfg, hm.symm⟩

/-- Inversion of a successful `electrical_specs.calculate_requirements` run. -/
theorem es_cr_inversion {s3 : ℚ} {ct : String} {cap : ℚ}
    {d : ElectricalSpecs.CircuitDesign}
    (h : ElectricalSpecs.calculate_requirements s3 ct cap = some d) :
    ∃ v b sa,
      ElectricalSpecs.voltageSel ct cap = some v ∧
      (STANDARD_BREAKERS.find? fun x =>
          decide (ElectricalSpecs.current s3 ct cap v * 1.25 ≤ x)) = some b ∧
      ((CABLE_CAPACITY (cores ct cap)).find? fun x =>
          decide (b ≤ x.2)) = some sa ∧
      d = { voltage := v
            phase := phase ct cap
            fullLoadCurrent := round1 (ElectricalSpecs.current s3 ct cap v)
            deratedCurrent :=
              round1 (ElectricalSpecs.current s3 ct cap v * 1.25)
            acInputCurrent :=
              if ct = "DC" then round1 (ElectricalSpecs.ac_current s3 ct cap v)
              else round1 (ElectricalSpecs.current s3 ct cap v)
            deratedAcCurrent :=
              if ct = "DC" then
                round1 (ElectricalSpecs.ac_current s3 ct cap v * 1.25)
              else round1 (ElectricalSpecs.current s3 ct cap v * 1.25)
            breakerSize := b
            breakerSpecs := ElectricalSpecs.breaker_spec ct cap b v
            cableSize := toString sa.1 ++ " mm²"
            cableType := cores ct cap ++ " PVC/XLPE Cu"
            cableCapacity := sa.2
            cableConfiguration := cores ct cap
            power := cap
            chargerType := ct } := by
  unfold ElectricalSpecs.calculate_requirements at h
  rw [Option.bind_eq_some] at h
  obtain ⟨v, hv, h2⟩ := h
  rw [Option.bind_eq_some] at h2
  obtain ⟨b, hb, h3⟩ := h2
  rw [Option.map_eq_some'] at h3
  obtain ⟨sa, hsa, hd⟩ := h3
  exact ⟨v, b, sa, hv, hb, hsa, hd.symm⟩

/-! Concrete evaluations of the embedded functions, used to discharge the
hypotheses of the claim theorems at specific inputs. -/

/-- AC 7 kW sizing at the default parameters evaluates to `dAC7`. -/
theorem eval_cr_AC7 :
    ChargerSpecs.calculate_requirements sqrt3f ChargerSpecs.defaultParams
      "AC" 7 = some ChargerSpecs.dAC7 := by
  norm_num [ChargerSpecs.calculate_requirements, ChargerSpecs.derated_current,
    ChargerSpecs.current, ChargerSpecs.ac_current, ChargerSpecs.ac_power,
    ChargerSpecs.derated_ac_current, ChargerSpecs.voltage, phase, cores,
    ChargerSpecs.breaker_spec, ChargerSpecs.defaultParams, sqrt3f,
    CABLE_CAPACITY, CABLE_2C, STANDARD_BREAKERS, List.find?, round1, pyRound,
    Int.fract, dictLookup, ChargerSpecs.dAC7,
    ChargerSpecs.CircuitDesign.mk.injEq, round_eq]
  exact ⟨rfl, rfl⟩

set_option maxRecDepth 8000 in
/-- DC 25 kW sizing at the default parameters evaluates to `dDC25`. -/
theorem eval_cr_DC25 :
    ChargerSpecs.calculate_requirements sqrt3f ChargerSpecs.defaultParams
      "DC" 25 = some ChargerSpecs.dDC25 := by
  norm_num [ChargerSpecs.calculate_requirements, ChargerSpecs.derated_current,
    ChargerSpecs.current, ChargerSpecs.ac_current, ChargerSpecs.ac_power,
    ChargerSpecs.derated_ac_current, ChargerSpecs.voltage, phase, cores,
    ChargerSpecs.breaker_spec, ChargerSpecs.defaultParams, sqrt3f,
    CABLE_CAPACITY, CABLE_2C, STANDARD_BREAKERS, List.find?, round1, pyRound,
    Int.fract, dictLookup, ChargerSpecs.dDC25,
    ChargerSpecs.CircuitDesign.mk.injEq, round_eq,
    show ("DC" : String) ≠ "AC" from by decide,
    show ("2C" : String) ≠ "1C" from by decide]
  exact ⟨rfl, rfl⟩

set_option maxRecDepth 8000 in
/-- DC 50 kW sizing at the default parameters evaluates to `dDC50`. -/
theorem eval_cr_DC50 :
    ChargerSpecs.calculate_requirements sqrt3f ChargerSpecs.defaultParams
      "DC" 50 = some ChargerSpecs.dDC50 := by
  norm_num [ChargerSpecs.calculate_requirements, ChargerSpecs.derated_current,
    ChargerSpecs.current, ChargerSpecs.ac_current, ChargerSpecs.ac_power,
    ChargerSpecs.derated_ac_current, ChargerSpecs.voltage, phase, cores,
    ChargerSpecs.breaker_spec, ChargerSpecs.defaultParams, sqrt3f,
    CABLE_CAPACITY, CABLE_2C, STANDARD_BREAKERS, List.find?, round1, pyRound,
    Int.fract, dictLookup, ChargerSpecs.dDC50,
    ChargerSpecs.CircuitDesign.mk.injEq, round_eq,
    show ("DC" : String) ≠ "AC" from by decide,
    show ("2C" : String) ≠ "1C" from by decide]
  exact ⟨rfl, rfl⟩

set_option maxRecDepth 8000 in
/-- DC 100 kW sizing at the default parameters evaluates to `dDC100`. -/
theorem eval_cr_DC100 :
    ChargerSpecs.calculate_requirements sqrt3f ChargerSpecs.defaultParams
      "DC" 100 = some ChargerSpecs.dDC100 := by
  norm_num [ChargerSpecs.calculate_requirements, ChargerSpecs.derated_current,
    ChargerSpecs.current, ChargerSpecs.ac_current, ChargerSpecs.ac_power,
    ChargerSpecs.derated_ac_current, ChargerSpecs.voltage, phase, cores,
    ChargerSpecs.breaker_spec, ChargerSpecs.defaultParams, sqrt3f,
    CABLE_CAPACITY, CABLE_2C, STANDARD_BREAKERS, List.find?, round1, pyRound,
    Int.fract, dictLookup, ChargerSpecs.dDC100,
    ChargerSpecs.CircuitDesign.mk.injEq, round_eq,
    show ("DC" : String) ≠ "AC" from by decide,
    show ("2C" : String) ≠ "1C" from by decide]
  exact ⟨rfl, rfl⟩

set_option maxRecDepth 16000 in
/-- `electrical_specs` AC 7 kW sizing evaluates to `dAC7e`. -/
theorem eval_es_AC7 :
    ElectricalSpecs.calculate_requirements sqrt3f "AC" 7 =
      some ElectricalSpecs.dAC7e := by
  have hv : ElectricalSpecs.voltageSel "AC" 7 = some 230 := by
    norm_num [ElectricalSpecs.voltageSel, dictLookup,
      ElectricalSpecs.VOLTAGE_AC, List.find?]
  unfold ElectricalSpecs.calculate_requirements
  rw [hv, Option.some_bind]
  norm_num [ElectricalSpecs.current, ElectricalSpecs.ac_current,
    ElectricalSpecs.breaker_spec, phase, cores, sqrt3f, CABLE_CAPACITY,
    CABLE_2C, STANDARD_BREAKERS, List.find?, round1, pyRound, Int.fract,
    ElectricalSpecs.dAC7e, ElectricalSpecs.CircuitDesign.mk.injEq, round_eq,
    show ("AC" : String) ≠ "DC" from by decide]
  exact ⟨rfl, rfl, rfl⟩

set_option maxRecDepth 16000 in
/-- `electrical_specs` DC 100 kW sizing evaluates to `dDC100e`. -/
theorem eval_es_DC100 :
    ElectricalSpecs.calculate_requirements sqrt3f "DC" 100 =
      some ElectricalSpecs.dDC100e := by
  have hv : ElectricalSpecs.voltageSel "DC" 100 = some 500 := by
    norm_num [ElectricalSpecs.voltageSel, ElectricalSpecs.dc_voltage,
      ElectricalSpecs.VOLTAGE_DC, List.find?,
      show ("DC" : String) ≠ "AC" from by decide]
  unfold ElectricalSpecs.calculate_requirements
  rw [hv, Option.some_bind]
  norm_num [ElectricalSpecs.current, ElectricalSpecs.ac_current,
    ElectricalSpecs.breaker_spec, phase, cores, sqrt3f, CABLE_CAPACITY,
    CABLE_2C, STANDARD_BREAKERS, List.find?, round1, pyRound, Int.fract,
    ElectricalSpecs.dDC100e, ElectricalSpecs.CircuitDesign.mk.injEq, round_eq,
    show ("DC" : String) ≠ "AC" from by decide,
    show ("2C" : String) ≠ "1C" from by decide]
  exact ⟨rfl, rfl, rfl⟩

set_option maxRecDepth 16000 in
/-- `electrical_specs` DC 300 kW sizing evaluates to `dDC300e`: the resolved
voltage is 750 V and the load current 400 A. -/
theorem eval_es_DC300 :
    ElectricalSpecs.calculate_requirements sqrt3f "DC" 300 =
      some ElectricalSpecs.dDC300e := by
  have hv : ElectricalSpecs.voltageSel "DC" 300 = some 750 := by
    norm_num [ElectricalSpecs.voltageSel, ElectricalSpecs.dc_voltage,
      ElectricalSpecs.VOLTAGE_DC, List.find?,
      show ("DC" : String) ≠ "AC" from by decide]
  unfold ElectricalSpecs.calculate_requirements
  rw [hv, Option.some_bind]
  norm_num [ElectricalSpecs.current, ElectricalSpecs.ac_current,
    ElectricalSpecs.breaker_spec, phase, cores, sqrt3f, CABLE_CAPACITY,
    CABLE_2C, STANDARD_BREAKERS, List.find?, round1, pyRound, Int.fract,
    ElectricalSpecs.dDC300e, ElectricalSpecs.CircuitDesign.mk.injEq, round_eq,
    show ("DC" : String) ≠ "AC" from by decide,
    show ("2C" : String) ≠ "1C" from by decide]
  exact ⟨rfl, rfl, rfl⟩

/-- Sizing 23 AC 7 kW chargers stores the single entry (38.0, 7, 23). -/
theorem eval_sizeAll_AC7x23 :
    ChargerSpecs.sizeAll sqrt3f ChargerSpecs.defaultParams [("AC", 7, 23)] =
      some [⟨38, 7, 23⟩] := by
  simp [ChargerSpecs.sizeAll, eval_cr_AC7, ChargerSpecs.entryOf,
    ChargerSpecs.dAC7]

/-- Sizing 15 AC 7 kW chargers stores the single entry (38.0, 7, 15). -/
theorem eval_sizeAll_AC7x15 :
    ChargerSpecs.sizeAll sqrt3f ChargerSpecs.defaultParams [("AC", 7, 15)] =
      some [⟨38, 7, 15⟩] := by
  simp [ChargerSpecs.sizeAll, eval_cr_AC7, ChargerSpecs.entryOf,
    ChargerSpecs.dAC7]

/-- Sizing 2 AC 7 kW chargers stores the single entry (38.0, 7, 2). -/
theorem eval_sizeAll_AC7x2 :
    ChargerSpecs.sizeAll sqrt3f ChargerSpecs.defaultParams [("AC", 7, 2)] =
      some [⟨38, 7, 2⟩] := by
  simp [ChargerSpecs.sizeAll, eval_cr_AC7, ChargerSpecs.entryOf,
    ChargerSpecs.dAC7]

/-- Aggregating the 23-charger entry evaluates to `mAC7x23`. -/
theorem eval_msb_AC7x23 :
    ChargerSpecs.calculate_msb ChargerSpecs.defaultParams [⟨38, 7, 23⟩] =
      some ChargerSpecs.mAC7x23 := by
  norm_num [ChargerSpecs.calculate_msb, ChargerSpecs.diversified_current,
    ChargerSpecs.msbTotal, ChargerSpecs.msbTotalPower,
    ChargerSpecs.defaultParams, STANDARD_BREAKERS, MSB_CONFIGS, List.find?,
    round1, pyRound, Int.fract, round_eq, ChargerSpecs.mAC7x23,
    ChargerSpecs.MsbResult.mk.injEq]
  refine ⟨?_, rfl⟩
  rw [show (⌈(3933 : ℚ)/500⌉ : ℤ) = 8 from by norm_num [Int.ceil_eq_iff]]
  norm_num

/-- Aggregating the 15-charger entry evaluates to `mAC7x15`: main breaker
630 A but recommended board 600 A. -/
theorem eval_msb_AC7x15 :
    ChargerSpecs.calculate_msb ChargerSpecs.defaultParams [⟨38, 7, 15⟩] =
      some ChargerSpecs.mAC7x15 := by
  norm_num [ChargerSpecs.calculate_msb, ChargerSpecs.diversified_current,
    ChargerSpecs.msbTotal, ChargerSpecs.msbTotalPower,
    ChargerSpecs.defaultParams, STANDARD_BREAKERS, MSB_CONFIGS, List.find?,
    round1, pyRound, Int.fract, round_eq, ChargerSpecs.mAC7x15,
    ChargerSpecs.MsbResult.mk.injEq]
  refine ⟨?_, rfl⟩
  rw [show (⌈(513 : ℚ)/100⌉ : ℤ) = 6 from by norm_num [Int.ceil_eq_iff]]
  norm_num

/-- Aggregating the empty charger list evaluates to `mEmpty` in both files. -/
theorem eval_msb_empty :
    ChargerSpecs.calculate_msb ChargerSpecs.defaultParams [] =
      some ChargerSpecs.mEmpty ∧
    ElectricalSpecs.calculate_msb [] = some ChargerSpecs.mEmpty := by
  constructor <;>
  · norm_num [ChargerSpecs.calculate_msb, ElectricalSpecs.calculate_msb,
      ChargerSpecs.diversified_current, ChargerSpecs.msbTotal,
      ChargerSpecs.msbTotalPower, ChargerSpecs.defaultParams,
      STANDARD_BREAKERS, MSB_CONFIGS, List.find?, round1, pyRound, Int.fract,
      round_eq, ChargerSpecs.mEmpty, ChargerSpecs.MsbResult.mk.injEq,
      Int.ceil_eq_iff]
    exact rfl

/-- `voltageSel` evaluations used to discharge hypotheses at witnesses. -/
theorem eval_vsel_AC7 : ElectricalSpecs.voltageSel "AC" 7 = some 230 := by
  norm_num [ElectricalSpecs.voltageSel, dictLookup,
    ElectricalSpecs.VOLTAGE_AC, List.find?]

/-- `voltageSel` at DC 100 kW resolves to 500 V. -/
theorem eval_vsel_DC100 : ElectricalSpecs.voltageSel "DC" 100 = some 500 := by
  norm_num [ElectricalSpecs.voltageSel, ElectricalSpecs.dc_voltage,
    ElectricalSpecs.VOLTAGE_DC, List.find?,
    show ("DC" : String) ≠ "AC" from by decide]

/-- `voltageSel` at DC 300 kW resolves to 750 V. -/
theorem eval_vsel_DC300 : ElectricalSpecs.voltageSel "DC" 300 = some 750 := by
  norm_num [ElectricalSpecs.voltageSel, ElectricalSpecs.dc_voltage,
    ElectricalSpecs.VOLTAGE_DC, List.find?,
    show ("DC" : String) ≠ "AC" from by decide]

/-- `voltageSel` for any AC capacity other than 7 resolves to the 22 kW
table entry, 400 V. -/
theorem eval_vsel_AC10000 :
    ElectricalSpecs.voltageSel "AC" 10000 = some 400 := by
  norm_num [ElectricalSpecs.voltageSel, dictLookup,
    ElectricalSpecs.VOLTAGE_AC, List.find?]

/-- C1: for every successful circuit sizing (in either source file), the
selected protective-device rating is a member of the standard breaker ladder,
is at least the derated load current, and no strictly smaller ladder member
reaches the derated load current. -/
theorem c1_breaker_minimal :
    (∀ s3 p ct cap d,
      ChargerSpecs.calculate_requirements s3 p ct cap = some d →
      d.breakerSize ∈ STANDARD_BREAKERS ∧
      ChargerSpecs.derated_current s3 p ct cap ≤ d.breakerSize ∧
      ∀ b ∈ STANDARD_BREAKERS, b < d.breakerSize →
        b < ChargerSpecs.derated_current s3 p ct cap) ∧
    (∀ s3 ct cap v d, ElectricalSpecs.voltageSel ct cap = some v →
      ElectricalSpecs.calculate_requirements s3 ct cap = some d →
      d.breakerSize ∈ STANDARD_BREAKERS ∧
      ElectricalSpecs.current s3 ct cap v * 1.25 ≤ d.breakerSize ∧
      ∀ b ∈ STANDARD_BREAKERS, b < d.breakerSize →
        b < ElectricalSpecs.current s3 ct cap v * 1.25) := by
  constructor
  · intro s3 p ct cap d h
    obtain ⟨b, sa, hb, hsa, hd⟩ := cs_cr_inversion h
    subst hd
    refine ⟨List.mem_of_find?_eq_some hb, by simpa using List.find?_some hb, ?_⟩
    intro x hx hxb
    have hfalse :=
      find?_min_key id STANDARD_BREAKERS breakers_sorted b hb x hx
        (by simpa using hxb)
    exact lt_of_not_le (of_decide_eq_false hfalse)
  · intro s3 ct cap v d hv h
    obtain ⟨v', b, sa, hv', hb, hsa, hd⟩ := es_cr_inversion h
    rw [hv] at hv'
    injection hv' with hvv
    subst hvv
    subst hd
    refine ⟨List.mem_of_find?_eq_some hb, by simpa using List.find?_some hb, ?_⟩
    intro x hx hxb
    have hfalse :=
      find?_min_key id STANDARD_BREAKERS breakers_sorted b hb x hx
        (by simpa using hxb)
    exact lt_of_not_le (of_decide_eq_false hfalse)

/-- Witness for C1: the AC 7 kW sizing in both files (breaker 40 A for a
derated current of 38.04 A). -/
theorem c1_breaker_minimal_witness :
    (ChargerSpecs.dAC7.breakerSize ∈ STANDARD_BREAKERS ∧
     ChargerSpecs.derated_current sqrt3f ChargerSpecs.defaultParams "AC" 7 ≤
       ChargerSpecs.dAC7.breakerSize ∧
     ∀ b ∈ STANDARD_BREAKERS, b < ChargerSpecs.dAC7.breakerSize →
       b < ChargerSpecs.derated_current sqrt3f ChargerSpecs.defaultParams
         "AC" 7) ∧
    (ElectricalSpecs.dAC7e.breakerSize ∈ STANDARD_BREAKERS ∧
     ElectricalSpecs.current sqrt3f "AC" 7 230 * 1.25 ≤
       ElectricalSpecs.dAC7e.breakerSize ∧
     ∀ b ∈ STANDARD_BREAKERS, b < ElectricalSpecs.dAC7e.breakerSize →
       b < ElectricalSpecs.current sqrt3f "AC" 7 230 * 1.25) :=
  ⟨c1_breaker_minimal.1 sqrt3f ChargerSpecs.defaultParams "AC" 7
      ChargerSpecs.dAC7 eval_cr_AC7,
   c1_breaker_minimal.2 sqrt3f "AC" 7 230 ElectricalSpecs.dAC7e
      eval_vsel_AC7 eval_es_AC7⟩

/-- C2: for every successful circuit sizing, the chosen cable is the smallest
cross-section of the resolved core configuration's table whose ampacity
reaches the selected breaker rating; hence the cable ampacity is at least the
breaker rating, and no smaller cross-section qualifies. -/
theorem c2_cable_minimal :
    (∀ s3 p ct cap d,
      ChargerSpecs.calculate_requirements s3 p ct cap = some d →
      (d.cableSize, d.cableCapacity) ∈ CABLE_CAPACITY (cores ct cap) ∧
      d.breakerSize ≤ d.cableCapacity ∧
      ∀ sb ∈ CABLE_CAPACITY (cores ct cap), sb.1 < d.cableSize →
        sb.2 < d.breakerSize) ∧
    (∀ s3 ct cap v d sa, ElectricalSpecs.voltageSel ct cap = some v →
      ((CABLE_CAPACITY (cores ct cap)).find? fun x =>
          decide (d.breakerSize ≤ x.2)) = some sa →
      ElectricalSpecs.calculate_requirements s3 ct cap = some d →
      sa ∈ CABLE_CAPACITY (cores ct cap) ∧ d.cableCapacity = sa.2 ∧
      d.cableSize = toString sa.1 ++ " mm²" ∧ d.breakerSize ≤ sa.2 ∧
      ∀ sb ∈ CABLE_CAPACITY (cores ct cap), sb.1 < sa.1 →
        sb.2 < d.breakerSize) := by
  constructor
  · intro s3 p ct cap d h
    obtain ⟨b, sa, hb, hsa, hd⟩ := cs_cr_inversion h
    subst hd
    have hmem := List.mem_of_find?_eq_some hsa
    have hcap : dictLookup (CABLE_CAPACITY (cores ct cap)) sa.1 = sa.2 :=
      dictLookup_mem (cable_sorted (cores ct cap)) hmem
    refine ⟨?_, ?_, ?_⟩
    · simpa [hcap] using hmem
    · simpa [hcap] using List.find?_some hsa
    · intro sb hsb hlt
      have hfalse :=
        find?_min_key Prod.fst (CABLE_CAPACITY (cores ct cap))
          (cable_sorted (cores ct cap)) sa hsa sb hsb (by simpa using hlt)
      exact lt_of_not_le (of_decide_eq_false hfalse)
  · intro s3 ct cap v d sa hv hfind h
    obtain ⟨v', b, sa', hv', hb, hsa', hd⟩ := es_cr_inversion h
    rw [hv] at hv'
    injection hv' with hvv
    subst hvv
    have hbsize : d.breakerSize = b := by rw [hd]
    rw [hbsize] at hfind
    rw [hfind] at hsa'
    injection hsa' with hsas
    subst hsas
    have hmem := List.mem_of_find?_eq_some hfind
    refine ⟨hmem, by rw [hd], by rw [hd], ?_, ?_⟩
    · have := List.find?_some hfind
      simpa [hbsize] using this
    · intro sb hsb hlt
      have hfalse :=
        find?_min_key Prod.fst (CABLE_CAPACITY (cores ct cap))
          (cable_sorted (cores ct cap)) sa hfind sb hsb (by simpa using hlt)
      rw [hbsize]
      exact lt_of_not_le (of_decide_eq_false hfalse)

/-- Witness for C2: the AC 7 kW sizing in both files (breaker 40 A, cable
10 mm² with ampacity 46 A in the 2C table). -/
theorem c2_cable_minimal_witness :
    ((ChargerSpecs.dAC7.cableSize, ChargerSpecs.dAC7.cableCapacity) ∈
       CABLE_CAPACITY (cores "AC" 7) ∧
     ChargerSpecs.dAC7.breakerSize ≤ ChargerSpecs.dAC7.cableCapacity ∧
     ∀ sb ∈ CABLE_CAPACITY (cores "AC" 7), sb.1 < ChargerSpecs.dAC7.cableSize →
       sb.2 < ChargerSpecs.dAC7.breakerSize) ∧
    ((10, 46) ∈ CABLE_CAPACITY (cores "AC" 7) ∧
     ElectricalSpecs.dAC7e.cableCapacity = (10, (46 : ℚ)).2 ∧
     ElectricalSpecs.dAC7e.cableSize = toString (10 : ℚ) ++ " mm²" ∧
     ElectricalSpecs.dAC7e.breakerSize ≤ (10, (46 : ℚ)).2 ∧
     ∀ sb ∈ CABLE_CAPACITY (cores "AC" 7), sb.1 < (10 : ℚ) →
       sb.2 < ElectricalSpecs.dAC7e.breakerSize) :=
  ⟨c2_cable_minimal.1 sqrt3f ChargerSpecs.defaultParams "AC" 7
      ChargerSpecs.dAC7 eval_cr_AC7,
   c2_cable_minimal.2 sqrt3f "AC" 7 230 ElectricalSpecs.dAC7e (10, 46)
      eval_vsel_AC7
      (by norm_num [ElectricalSpecs.dAC7e, cores, CABLE_CAPACITY, CABLE_2C,
        List.find?])
      eval_es_AC7⟩

/-- `voltageSel` at DC 150 kW resolves to 500 V. -/
theorem eval_vsel_DC150 : ElectricalSpecs.voltageSel "DC" 150 = some 500 := by
  norm_num [ElectricalSpecs.voltageSel, ElectricalSpecs.dc_voltage,
    ElectricalSpecs.VOLTAGE_DC, List.find?,
    show ("DC" : String) ≠ "AC" from by decide]

set_option maxRecDepth 16000 in
/-- `electrical_specs` DC 150 kW sizing evaluates to `dDC150e`. -/
theorem eval_es_DC150 :
    ElectricalSpecs.calculate_requirements sqrt3f "DC" 150 =
      some ElectricalSpecs.dDC150e := by
  unfold ElectricalSpecs.calculate_requirements
  rw [eval_vsel_DC150, Option.some_bind]
  norm_num [ElectricalSpecs.current, ElectricalSpecs.ac_current,
    ElectricalSpecs.breaker_spec, phase, cores, sqrt3f, CABLE_CAPACITY,
    CABLE_2C, STANDARD_BREAKERS, List.find?, round1, pyRound, Int.fract,
    ElectricalSpecs.dDC150e, ElectricalSpecs.CircuitDesign.mk.injEq, round_eq,
    show ("DC" : String) ≠ "AC" from by decide,
    show ("2C" : String) ≠ "1C" from by decide]
  exact ⟨rfl, rfl, rfl⟩

/-- A successful `VOLTAGE["DC"]` lookup pins its capacity/voltage pair to a
row of the table. -/
theorem es_dc_voltage_mem {cap v : ℚ}
    (h : ElectricalSpecs.dc_voltage cap = some v) :
    (cap, v) ∈ ElectricalSpecs.VOLTAGE_DC := by
  unfold ElectricalSpecs.dc_voltage at h
  rw [Option.map_eq_some'] at h
  obtain ⟨kv, hfind, hv⟩ := h
  have hmem := List.mem_of_find?_eq_some hfind
  have hkey : kv.1 = cap := by simpa using List.find?_some hfind
  have hpair : (cap, v) = kv := by
    rw [← hkey, ← hv]
  rw [hpair]
  exact hmem

/-- Across the whole `electrical_specs` DC voltage table — including the
500 V → 750 V step at 300 kW — the DC load current capacity×1000/voltage is
monotone in capacity. -/
theorem es_dc_current_mono {a b va vb : ℚ}
    (ha : (a, va) ∈ ElectricalSpecs.VOLTAGE_DC)
    (hb : (b, vb) ∈ ElectricalSpecs.VOLTAGE_DC) (hab : a < b) :
    a * 1000 / va ≤ b * 1000 / vb := by
  fin_cases ha <;> fin_cases hb <;> norm_num at hab ⊢

/-- The `VOLTAGE["AC"][22]` lookup used for every non-7 kW AC capacity. -/
theorem es_ac_voltage_22 : dictLookup ElectricalSpecs.VOLTAGE_AC 22 = 400 := by
  norm_num [dictLookup, ElectricalSpecs.VOLTAGE_AC, List.find?]

/-- The load-current formula is monotone in capacity within a fixed charger
type and phase configuration (positive voltages). -/
theorem cs_current_mono {s3 : ℚ} {p : ChargerSpecs.CalcParams} {ct : String}
    (hs3 : 0 < s3) (hav : 0 < p.ac_voltage) (hdv : 0 < p.dc_voltage)
    {a b : ℚ} (hab : a ≤ b) (hph : ct = "AC" → (a = 7 ↔ b = 7)) :
    ChargerSpecs.current s3 p ct a ≤ ChargerSpecs.current s3 p ct b := by
  unfold ChargerSpecs.current
  by_cases hct : ct = "AC"
  · rw [if_pos hct, if_pos hct]
    by_cases h7 : a = 7
    · have hb7 : b = 7 := (hph hct).mp h7
      rw [if_pos h7, if_pos hb7, h7, hb7]
    · have hb7 : b ≠ 7 := fun hb => h7 ((hph hct).mpr hb)
      rw [if_neg h7, if_neg hb7]
      have hpos : 0 < p.ac_voltage * s3 := mul_pos hav hs3
      gcongr
  · rw [if_neg hct, if_neg hct]
    gcongr

/-- C9: for capacities a < b of the same charger type and phase
configuration, the load current is monotone and, when both sizings succeed,
so is the selected breaker rating — in `charger_specs` (positive voltage
parameters, nonnegative safety factor) and in `electrical_specs` (whose DC
voltages come from the `VOLTAGE` table, including the 500 V → 750 V step at
300 kW). -/
theorem c9_sizing_monotone :
    (∀ s3 p ct a b d1 d2, 0 < s3 → 0 < p.ac_voltage → 0 < p.dc_voltage →
      0 ≤ p.safety_factor → a < b → (ct = "AC" → (a = 7 ↔ b = 7)) →
      ChargerSpecs.calculate_requirements s3 p ct a = some d1 →
      ChargerSpecs.calculate_requirements s3 p ct b = some d2 →
      ChargerSpecs.current s3 p ct a ≤ ChargerSpecs.current s3 p ct b ∧
      d1.breakerSize ≤ d2.breakerSize) ∧
    (∀ s3 ct a b va vb d1 d2, 0 < s3 → a < b →
      (ct = "AC" → (a = 7 ↔ b = 7)) →
      ElectricalSpecs.voltageSel ct a = some va →
      ElectricalSpecs.voltageSel ct b = some vb →
      ElectricalSpecs.calculate_requirements s3 ct a = some d1 →
      ElectricalSpecs.calculate_requirements s3 ct b = some d2 →
      ElectricalSpecs.current s3 ct a va ≤ ElectricalSpecs.current s3 ct b vb ∧
      d1.breakerSize ≤ d2.breakerSize) := by
  constructor
  · intro s3 p ct a b d1 d2 hs3 hav hdv hsf hab hph h1 h2
    have hcur := cs_current_mono hs3 hav hdv (le_of_lt hab) hph
    refine ⟨hcur, ?_⟩
    obtain ⟨b1, sa1, hb1, hsa1, hd1⟩ := cs_cr_inversion h1
    obtain ⟨b2, sa2, hb2, hsa2, hd2⟩ := cs_cr_inversion h2
    subst hd1
    subst hd2
    have hder : ChargerSpecs.derated_current s3 p ct a ≤
        ChargerSpecs.derated_current s3 p ct b :=
      mul_le_mul_of_nonneg_right hcur hsf
    obtain ⟨b1', hfind, hle⟩ :=
      find?_ge_mono STANDARD_BREAKERS breakers_sorted
        (ChargerSpecs.derated_current s3 p ct a)
        (ChargerSpecs.derated_current s3 p ct b) b2 hder hb2
    rw [hb1] at hfind
    injection hfind with hbb
    subst hbb
    simpa using hle
  · intro s3 ct a b va vb d1 d2 hs3 hab hph hva hvb h1 h2
    have hcur : ElectricalSpecs.current s3 ct a va ≤
        ElectricalSpecs.current s3 ct b vb := by
      by_cases hct : ct = "AC"
      · subst hct
        by_cases h7 : a = 7
        · have hb7 : b = 7 := (hph rfl).mp h7
          rw [h7, hb7] at hab
          exact absurd hab (lt_irrefl _)
        · have hb7 : b ≠ 7 := fun hb => h7 ((hph rfl).mpr hb)
          unfold ElectricalSpecs.voltageSel at hva hvb
          rw [if_pos rfl, if_neg h7] at hva
          rw [if_pos rfl, if_neg hb7] at hvb
          injection hva with hva
          injection hvb with hvb
          have hab' : a ≤ b := le_of_lt hab
          unfold ElectricalSpecs.current
          rw [if_pos rfl, if_pos rfl, if_neg h7, if_neg hb7, ← hva, ← hvb,
            es_ac_voltage_22]
          have hpos : 0 < (400 : ℚ) * s3 := by positivity
          gcongr
      · have hva' : ElectricalSpecs.dc_voltage a = some va := by
          unfold ElectricalSpecs.voltageSel at hva
          rwa [if_neg hct] at hva
        have hvb' : ElectricalSpecs.dc_voltage b = some vb := by
          unfold ElectricalSpecs.voltageSel at hvb
          rwa [if_neg hct] at hvb
        unfold ElectricalSpecs.current
        rw [if_neg hct, if_neg hct]
        exact es_dc_current_mono (es_dc_voltage_mem hva')
          (es_dc_voltage_mem hvb') hab
    refine ⟨hcur, ?_⟩
    obtain ⟨va', b1, sa1, hva1, hb1, hsa1, hd1⟩ := es_cr_inversion h1
    obtain ⟨vb', b2, sa2, hvb1, hb2, hsa2, hd2⟩ := es_cr_inversion h2
    rw [hva] at hva1
    injection hva1 with hvaa
    subst hvaa
    rw [hvb] at hvb1
    injection hvb1 with hvbb
    subst hvbb
    subst hd1
    subst hd2
    have hder : ElectricalSpecs.current s3 ct a va * 1.25 ≤
        ElectricalSpecs.current s3 ct b vb * 1.25 :=
      mul_le_mul_of_nonneg_right hcur (by norm_num)
    obtain ⟨b1', hfind, hle⟩ :=
      find?_ge_mono STANDARD_BREAKERS breakers_sorted
        (ElectricalSpecs.current s3 ct a va * 1.25)
        (ElectricalSpecs.current s3 ct b vb * 1.25) b2 hder hb2
    rw [hb1] at hfind
    injection hfind with hbb
    subst hbb
    simpa using hle

/-- Witness for C9: DC 25 kW vs DC 50 kW at default parameters in
`charger_specs` (50 A ≤ 100 A, 63 A ≤ 125 A) and DC 150 kW vs DC 300 kW in
`electrical_specs`, spanning the table's 500 V → 750 V step
(300 A ≤ 400 A, 400 A ≤ 500 A). -/
theorem c9_sizing_monotone_witness :
    (ChargerSpecs.current sqrt3f ChargerSpecs.defaultParams "DC" 25 ≤
      ChargerSpecs.current sqrt3f ChargerSpecs.defaultParams "DC" 50 ∧
     ChargerSpecs.dDC25.breakerSize ≤ ChargerSpecs.dDC50.breakerSize) ∧
    (ElectricalSpecs.current sqrt3f "DC" 150 500 ≤
      ElectricalSpecs.current sqrt3f "DC" 300 750 ∧
     ElectricalSpecs.dDC150e.breakerSize ≤
       ElectricalSpecs.dDC300e.breakerSize) :=
  ⟨c9_sizing_monotone.1 sqrt3f ChargerSpecs.defaultParams "DC" 25 50
      ChargerSpecs.dDC25 ChargerSpecs.dDC50
      (by norm_num [sqrt3f]) (by norm_num [ChargerSpecs.defaultParams])
      (by norm_num [ChargerSpecs.defaultParams])
      (by norm_num [ChargerSpecs.defaultParams]) (by norm_num)
      (fun h => absurd h (by decide)) eval_cr_DC25 eval_cr_DC50,
   c9_sizing_monotone.2 sqrt3f "DC" 150 300 500 750
      ElectricalSpecs.dDC150e ElectricalSpecs.dDC300e
      (by norm_num [sqrt3f]) (by norm_num)
      (fun h => absurd h (by decide)) eval_vsel_DC150 eval_vsel_DC300
      eval_es_DC150 eval_es_DC300⟩

/-- Counterexample to C3: in `electrical_specs.py` the DC 300 kW charger is
sized at the `VOLTAGE` table's 750 V, not at the 500 V default DC voltage,
and its load current is 400 A, not 300×1000/500 = 600 A. -/
theorem c3_counterexample :
    ElectricalSpecs.calculate_requirements sqrt3f "DC" 300 =
      some ElectricalSpecs.dDC300e ∧
    ElectricalSpecs.dDC300e.voltage = 750 ∧
    ElectricalSpecs.dDC300e.fullLoadCurrent = 400 ∧
    (750 : ℚ) ≠ 500 ∧ (400 : ℚ) ≠ round1 (300 * 1000 / 500) := by
  refine ⟨eval_es_DC300, rfl, rfl, by norm_num, ?_⟩
  norm_num [round1, pyRound, Int.fract, round_eq]

/-- C3 as amended: `charger_specs` sizes every DC capacity at
`params.dc_voltage` with current = capacity×1000/dc_voltage, while
`electrical_specs` uses its `VOLTAGE["DC"]` table — 500 V for the 25–150 kW
menu entries but 750 V for 300 and 350 kW — with current =
capacity×1000/(table voltage). -/
theorem c3_dc_voltage :
    (∀ s3 p cap d,
      ChargerSpecs.calculate_requirements s3 p "DC" cap = some d →
      d.voltage = p.dc_voltage ∧
      ChargerSpecs.current s3 p "DC" cap = cap * 1000 / p.dc_voltage ∧
      d.fullLoadCurrent = round1 (cap * 1000 / p.dc_voltage)) ∧
    (∀ s3 cap v d, ElectricalSpecs.dc_voltage cap = some v →
      ElectricalSpecs.calculate_requirements s3 "DC" cap = some d →
      d.voltage = v ∧ d.fullLoadCurrent = round1 (cap * 1000 / v)) ∧
    (∀ c ∈ ([25, 50, 75, 100, 120, 150] : List ℚ),
      ElectricalSpecs.dc_voltage c = some 500) ∧
    ElectricalSpecs.dc_voltage 300 = some 750 ∧
    ElectricalSpecs.dc_voltage 350 = some 750 := by
  have hcur : ∀ s3 p cap, ChargerSpecs.current s3 p "DC" cap =
      cap * 1000 / p.dc_voltage := by
    intro s3 p cap
    simp [ChargerSpecs.current]
  refine ⟨?_, ?_, by decide, by decide, by decide⟩
  · intro s3 p cap d h
    obtain ⟨b, sa, hb, hsa, hd⟩ := cs_cr_inversion h
    subst hd
    refine ⟨by simp [ChargerSpecs.voltage], hcur s3 p cap, ?_⟩
    show round1 (ChargerSpecs.current s3 p "DC" cap) = _
    rw [hcur]
  · intro s3 cap v d hv h
    obtain ⟨v', b, sa, hv', hb, hsa, hd⟩ := es_cr_inversion h
    have : ElectricalSpecs.voltageSel "DC" cap = ElectricalSpecs.dc_voltage cap := by
      simp [ElectricalSpecs.voltageSel]
    rw [this, hv] at hv'
    injection hv' with hvv
    subst hvv
    subst hd
    refine ⟨rfl, ?_⟩
    show round1 (ElectricalSpecs.current s3 "DC" cap v) = _
    have : ElectricalSpecs.current s3 "DC" cap v = cap * 1000 / v := by
      simp [ElectricalSpecs.current]
    rw [this]

/-- Witness for C3 (amended) at DC 100 kW in both files. -/
theorem c3_dc_voltage_witness :
    (ChargerSpecs.dDC100.voltage = ChargerSpecs.defaultParams.dc_voltage ∧
     ChargerSpecs.current sqrt3f ChargerSpecs.defaultParams "DC" 100 =
       100 * 1000 / ChargerSpecs.defaultParams.dc_voltage ∧
     ChargerSpecs.dDC100.fullLoadCurrent =
       round1 (100 * 1000 / ChargerSpecs.defaultParams.dc_voltage)) ∧
    (ElectricalSpecs.dDC100e.voltage = 500 ∧
     ElectricalSpecs.dDC100e.fullLoadCurrent = round1 (100 * 1000 / 500)) :=
  ⟨c3_dc_voltage.1 sqrt3f ChargerSpecs.defaultParams 100 ChargerSpecs.dDC100
      eval_cr_DC100,
   c3_dc_voltage.2.1 sqrt3f 100 500 ElectricalSpecs.dDC100e (by decide)
      eval_es_DC100⟩

/-- C4: in the parameterized implementation, the AC-equivalent input current
of a DC charger is capacity/(dc_efficiency×power_factor)×1000/(ac_voltage×√3),
determined by the user-adjustable parameters; the stored record carries its
one-decimal rounding and the derated value. -/
theorem c4_dc_ac_equivalent :
    ∀ s3 p cap d,
      ChargerSpecs.calculate_requirements s3 p "DC" cap = some d →
      ChargerSpecs.ac_current s3 p "DC" cap =
        cap / (p.dc_efficiency * p.power_factor) * 1000 /
          (p.ac_voltage * s3) ∧
      d.acInputCurrent =
        round1 (cap / (p.dc_efficiency * p.power_factor) * 1000 /
          (p.ac_voltage * s3)) ∧
      d.deratedAcCurrent =
        round1 (cap / (p.dc_efficiency * p.power_factor) * 1000 /
          (p.ac_voltage * s3) * p.safety_factor) := by
  intro s3 p cap d h
  have hac : ChargerSpecs.ac_current s3 p "DC" cap =
      cap / (p.dc_efficiency * p.power_factor) * 1000 / (p.ac_voltage * s3) := by
    simp [ChargerSpecs.ac_current, ChargerSpecs.ac_power]
  obtain ⟨b, sa, hb, hsa, hd⟩ := cs_cr_inversion h
  subst hd
  refine ⟨hac, ?_, ?_⟩
  · show round1 (ChargerSpecs.ac_current s3 p "DC" cap) = _
    rw [hac]
  · show round1 (ChargerSpecs.derated_ac_current s3 p "DC" cap) = _
    unfold ChargerSpecs.derated_ac_current
    rw [hac]

/-- Witness for C4 at DC 100 kW, default parameters. -/
theorem c4_dc_ac_equivalent_witness :
    ChargerSpecs.ac_current sqrt3f ChargerSpecs.defaultParams "DC" 100 =
      100 / (ChargerSpecs.defaultParams.dc_efficiency *
        ChargerSpecs.defaultParams.power_factor) * 1000 /
        (ChargerSpecs.defaultParams.ac_voltage * sqrt3f) ∧
    ChargerSpecs.dDC100.acInputCurrent =
      round1 (100 / (ChargerSpecs.defaultParams.dc_efficiency *
        ChargerSpecs.defaultParams.power_factor) * 1000 /
        (ChargerSpecs.defaultParams.ac_voltage * sqrt3f)) ∧
    ChargerSpecs.dDC100.deratedAcCurrent =
      round1 (100 / (ChargerSpecs.defaultParams.dc_efficiency *
        ChargerSpecs.defaultParams.power_factor) * 1000 /
        (ChargerSpecs.defaultParams.ac_voltage * sqrt3f) *
        ChargerSpecs.defaultParams.safety_factor) :=
  c4_dc_ac_equivalent sqrt3f ChargerSpecs.defaultParams 100
    ChargerSpecs.dDC100 eval_cr_DC100

/-- The board-catalog search at the diversified current of 15 AC 7 kW
chargers (513 A) selects the 600 A board. -/
theorem eval_cfg_513 :
    (MSB_CONFIGS.find? fun c =>
        decide (ChargerSpecs.diversified_current ChargerSpecs.defaultParams
          [⟨38, 7, 15⟩] ≤ c.busbar)) =
      some ⟨600, "800x400x300", 600⟩ := by
  norm_num [ChargerSpecs.diversified_current, ChargerSpecs.msbTotal,
    ChargerSpecs.defaultParams, MSB_CONFIGS, List.find?]

/-- Counterexample to C5: 23 AC 7 kW chargers.  Each stored entry carries the
rounded derated AC current 38.0 A, so aggregation totals 38.0×23 = 874.0 A,
while the full-precision sum is (875/23)×23 = 875 A exactly; the reported
total (874.0) differs from the rounding of the exact sum (875.0). -/
theorem c5_counterexample :
    ChargerSpecs.sizeAll sqrt3f ChargerSpecs.defaultParams [("AC", 7, 23)] =
      some [⟨38, 7, 23⟩] ∧
    ChargerSpecs.calculate_msb ChargerSpecs.defaultParams [⟨38, 7, 23⟩] =
      some ChargerSpecs.mAC7x23 ∧
    ChargerSpecs.mAC7x23.totalDeratedAcCurrent = 874 ∧
    ChargerSpecs.derated_ac_current sqrt3f ChargerSpecs.defaultParams "AC" 7 *
      23 = 875 ∧
    round1 875 = 875 ∧ (874 : ℚ) ≠ 875 := by
  refine ⟨eval_sizeAll_AC7x23, eval_msb_AC7x23, rfl, ?_, ?_, by norm_num⟩
  · norm_num [ChargerSpecs.derated_ac_current, ChargerSpecs.ac_current,
      ChargerSpecs.current, ChargerSpecs.defaultParams]
  · norm_num [round1, pyRound, Int.fract, round_eq]

/-- C5 as amended: aggregation consumes the per-circuit derated AC currents
as stored in the circuit records, i.e. already rounded to one decimal: the
total it computes is the sum of round1(derated AC current)×quantity, not of
the full-precision values. -/
theorem c5_total_from_rounded :
    ∀ s3 p specs entries,
      ChargerSpecs.sizeAll s3 p specs = some entries →
      ChargerSpecs.msbTotal entries =
        (specs.map fun sp =>
          round1 (ChargerSpecs.derated_ac_current s3 p sp.1 sp.2.1) *
            (sp.2.2 : ℚ)).sum := by
  intro s3 p specs
  induction specs with
  | nil =>
    intro entries h
    have he : some ([] : List ChargerSpecs.ChargerEntry) = some entries := by
      simpa [ChargerSpecs.sizeAll] using h
    injection he with he
    subst he
    simp [ChargerSpecs.msbTotal]
  | cons sp rest ih =>
    intro entries h
    unfold ChargerSpecs.sizeAll at h
    rw [Option.bind_eq_some] at h
    obtain ⟨d, hd, h2⟩ := h
    rw [Option.map_eq_some'] at h2
    obtain ⟨es, hes, hent⟩ := h2
    subst hent
    obtain ⟨b, sa, hb, hsa, hdd⟩ := cs_cr_inversion hd
    have hdac : d.deratedAcCurrent =
        round1 (ChargerSpecs.derated_ac_current s3 p sp.1 sp.2.1) := by
      rw [hdd]
    rw [show ChargerSpecs.msbTotal (ChargerSpecs.entryOf d sp.2.2 :: es) =
        d.deratedAcCurrent * (sp.2.2 : ℚ) + ChargerSpecs.msbTotal es from by
      simp [ChargerSpecs.msbTotal, ChargerSpecs.entryOf]]
    rw [List.map_cons, List.sum_cons, ih es hes, hdac]

/-- Witness for C5 (amended) at two AC 7 kW chargers. -/
theorem c5_total_from_rounded_witness :
    ChargerSpecs.msbTotal [⟨38, 7, 2⟩] =
      (([("AC", 7, 2)] : List (String × ℚ × ℕ)).map fun sp =>
        round1 (ChargerSpecs.derated_ac_current sqrt3f
          ChargerSpecs.defaultParams sp.1 sp.2.1) * (sp.2.2 : ℚ)).sum :=
  c5_total_from_rounded sqrt3f ChargerSpecs.defaultParams [("AC", 7, 2)]
    [⟨38, 7, 2⟩] eval_sizeAll_AC7x2

/-- Counterexample to C6: on the empty charger list, both aggregation
functions return a DistributionDesign whose main breaker is 6 A (the smallest
ladder entry) and whose recommended board is the 100 A catalog entry — not a
zero-valued design and not a distinct no-load result. -/
theorem c6_counterexample :
    ChargerSpecs.calculate_msb ChargerSpecs.defaultParams [] =
      some ChargerSpecs.mEmpty ∧
    ElectricalSpecs.calculate_msb [] = some ChargerSpecs.mEmpty ∧
    ChargerSpecs.mEmpty.mainBreakerSize = 6 ∧
    ChargerSpecs.mEmpty.recommendedMsbSize = 100 ∧
    (6 : ℚ) ≠ 0 ∧ (100 : ℚ) ≠ 0 :=
  ⟨eval_msb_empty.1, eval_msb_empty.2, rfl, rfl, by norm_num, by norm_num⟩

/-- C6 as amended: aggregation of an empty collection does not fail: for any
parameters it returns a design with zero load, current and busbar figures but
with the minimum ladder breaker (6 A) and the minimum catalog board (100 A). -/
theorem c6_empty_aggregation :
    ∀ p, ChargerSpecs.calculate_msb p [] = some
      { totalConnectedLoad := 0, totalDeratedAcCurrent := 0,
        diversificationFactor := p.diversity_factor, diversifiedCurrent := 0,
        mainBreakerSize := 6, recommendedMsbSize := 100, busbarRating := 0,
        msbDimensions := "300x200x150",
        msbConfiguration := "100A Main Switchboard" } := by
  intro p
  have h0 : ChargerSpecs.diversified_current p [] = 0 := by
    simp [ChargerSpecs.diversified_current, ChargerSpecs.msbTotal]
  unfold ChargerSpecs.calculate_msb
  rw [h0]
  norm_num [STANDARD_BREAKERS, MSB_CONFIGS, List.find?,
    ChargerSpecs.msbTotal, ChargerSpecs.msbTotalPower, round1, pyRound,
    Int.fract, round_eq, ChargerSpecs.MsbResult.mk.injEq]
  rfl

/-- C7: whenever the (derated, resp. diversified) current exceeds the largest
standard breaker rating of 2000 A, circuit sizing and aggregation — in both
source files — return the explicit failure value `none`, never a clamped or
default design. -/
theorem c7_overflow_failure :
    (∀ s3 p ct cap, 2000 < ChargerSpecs.derated_current s3 p ct cap →
      ChargerSpecs.calculate_requirements s3 p ct cap = none) ∧
    (∀ p chargers, 2000 < ChargerSpecs.diversified_current p chargers →
      ChargerSpecs.calculate_msb p chargers = none) ∧
    (∀ s3 ct cap v, ElectricalSpecs.voltageSel ct cap = some v →
      2000 < ElectricalSpecs.current s3 ct cap v * 1.25 →
      ElectricalSpecs.calculate_requirements s3 ct cap = none) ∧
    (∀ chargers, 2000 < ChargerSpecs.msbTotal chargers * 0.9 →
      ElectricalSpecs.calculate_msb chargers = none) := by
  have hnone : ∀ t : ℚ, 2000 < t →
      (STANDARD_BREAKERS.find? fun x => decide (t ≤ x)) = none := by
    intro t ht
    rw [List.find?_eq_none]
    intro x hx
    simp only [decide_eq_true_eq]
    exact not_le.mpr (lt_of_le_of_lt (breakers_le_2000 x hx) ht)
  refine ⟨?_, ?_, ?_, ?_⟩
  · intro s3 p ct cap h
    unfold ChargerSpecs.calculate_requirements
    rw [hnone _ h]
    rfl
  · intro p chargers h
    unfold ChargerSpecs.calculate_msb
    rw [hnone _ h]
    rfl
  · intro s3 ct cap v hv h
    unfold ElectricalSpecs.calculate_requirements
    rw [hv, Option.some_bind, hnone _ h]
    rfl
  · intro chargers h
    unfold ElectricalSpecs.calculate_msb
    rw [hnone _ h]
    rfl

/-- Witness for C7: a hypothetical DC 10000 kW charger (derated 25000 A), a
hypothetical AC 10000 kW charger, and an entry list summing to 2250 A
diversified. -/
theorem c7_overflow_failure_witness :
    (2000 < ChargerSpecs.derated_current sqrt3f ChargerSpecs.defaultParams
        "DC" 10000 ∧
     ChargerSpecs.calculate_requirements sqrt3f ChargerSpecs.defaultParams
        "DC" 10000 = none) ∧
    (2000 < ChargerSpecs.diversified_current ChargerSpecs.defaultParams
        [⟨2500, 100, 1⟩] ∧
     ChargerSpecs.calculate_msb ChargerSpecs.defaultParams
        [⟨2500, 100, 1⟩] = none) ∧
    (2000 < ElectricalSpecs.current sqrt3f "AC" 10000 400 * 1.25 ∧
     ElectricalSpecs.calculate_requirements sqrt3f "AC" 10000 = none) ∧
    (2000 < ChargerSpecs.msbTotal [⟨2500, 100, 1⟩] * 0.9 ∧
     ElectricalSpecs.calculate_msb [⟨2500, 100, 1⟩] = none) := by
  have h1 : 2000 < ChargerSpecs.derated_current sqrt3f
      ChargerSpecs.defaultParams "DC" 10000 := by
    norm_num [ChargerSpecs.derated_current, ChargerSpecs.current,
      ChargerSpecs.defaultParams, show ("DC" : String) ≠ "AC" from by decide]
  have h2 : 2000 < ChargerSpecs.diversified_current ChargerSpecs.defaultParams
      [⟨2500, 100, 1⟩] := by
    norm_num [ChargerSpecs.diversified_current, ChargerSpecs.msbTotal,
      ChargerSpecs.defaultParams]
  have h3 : 2000 < ElectricalSpecs.current sqrt3f "AC" 10000 400 * 1.25 := by
    norm_num [ElectricalSpecs.current, sqrt3f]
  have h4 : 2000 < ChargerSpecs.msbTotal [⟨2500, 100, 1⟩] * 0.9 := by
    norm_num [ChargerSpecs.msbTotal]
  exact ⟨⟨h1, c7_overflow_failure.1 _ _ _ _ h1⟩,
    ⟨h2, c7_overflow_failure.2.1 _ _ h2⟩,
    ⟨h3, c7_overflow_failure.2.2.1 sqrt3f "AC" 10000 400 eval_vsel_AC10000 h3⟩,
    ⟨h4, c7_overflow_failure.2.2.2 _ h4⟩⟩

/-- C8: with a diversity factor ≤ 1 and nonnegative per-circuit derated AC
currents, the diversified current never exceeds the total derated AC
current. -/
theorem c8_diversity_no_increase :
    ∀ p chargers, p.diversity_factor ≤ 1 →
      (∀ c ∈ chargers, 0 ≤ ChargerSpecs.ChargerEntry.deratedAcCurrent c) →
      ChargerSpecs.diversified_current p chargers ≤
        ChargerSpecs.msbTotal chargers := by
  intro p chargers hdf hnn
  have htot : 0 ≤ ChargerSpecs.msbTotal chargers := by
    apply List.sum_nonneg
    intro x hx
    simp only [List.mem_map] at hx
    obtain ⟨c, hc, rfl⟩ := hx
    exact mul_nonneg (hnn c hc) (by positivity)
  calc ChargerSpecs.diversified_current p chargers
      = ChargerSpecs.msbTotal chargers * p.diversity_factor := rfl
    _ ≤ ChargerSpecs.msbTotal chargers * 1 :=
        mul_le_mul_of_nonneg_left hdf htot
    _ = ChargerSpecs.msbTotal chargers := mul_one _

/-- Witness for C8 at the default diversity factor 0.9 and two AC 7 kW
entries. -/
theorem c8_diversity_no_increase_witness :
    ChargerSpecs.defaultParams.diversity_factor ≤ 1 ∧
    ChargerSpecs.diversified_current ChargerSpecs.defaultParams [⟨38, 7, 2⟩] ≤
      ChargerSpecs.msbTotal [⟨38, 7, 2⟩] := by
  have hdf : ChargerSpecs.defaultParams.diversity_factor ≤ 1 := by
    norm_num [ChargerSpecs.defaultParams]
  refine ⟨hdf,
    c8_diversity_no_increase ChargerSpecs.defaultParams [⟨38, 7, 2⟩] hdf ?_⟩
  intro c hc
  rw [List.mem_singleton] at hc
  subst hc
  norm_num

/-- Counterexample to C10: with 15 AC 7 kW chargers (diversified current
513 A) the main breaker is 630 A but the selected catalog entry is the 600 A
board with busbar 600 A < 630 A. -/
theorem c10_counterexample :
    ChargerSpecs.sizeAll sqrt3f ChargerSpecs.defaultParams [("AC", 7, 15)] =
      some [⟨38, 7, 15⟩] ∧
    ChargerSpecs.calculate_msb ChargerSpecs.defaultParams [⟨38, 7, 15⟩] =
      some ChargerSpecs.mAC7x15 ∧
    (MSB_CONFIGS.find? fun c =>
        decide (ChargerSpecs.diversified_current ChargerSpecs.defaultParams
          [⟨38, 7, 15⟩] ≤ c.busbar)) = some ⟨600, "800x400x300", 600⟩ ∧
    ChargerSpecs.mAC7x15.mainBreakerSize = 630 ∧
    ChargerSpecs.mAC7x15.recommendedMsbSize = 600 ∧
    (600 : ℚ) < 630 :=
  ⟨eval_sizeAll_AC7x15, eval_msb_AC7x15, eval_cfg_513, rfl, rfl, by norm_num⟩

/-- C10 as amended: for every successful aggregation the selected catalog
entry's busbar rating covers the diversified current (busbar = nominal rating
for every entry), but it need not reach the main breaker rating. -/
theorem c10_board_covers_diversified :
    ∀ p chargers m cfg,
      (MSB_CONFIGS.find? fun c =>
        decide (ChargerSpecs.diversified_current p chargers ≤ c.busbar)) =
          some cfg →
      ChargerSpecs.calculate_msb p chargers = some m →
      cfg ∈ MSB_CONFIGS ∧ m.recommendedMsbSize = cfg.amps ∧
      cfg.busbar = cfg.amps ∧
      ChargerSpecs.diversified_current p chargers ≤ cfg.busbar := by
  intro p chargers m cfg hfind h
  obtain ⟨mb, cfg', hmb, hcfg', hm⟩ := cs_msb_inversion h
  rw [hfind] at hcfg'
  injection hcfg' with hcc
  subst hcc
  have hmem := List.mem_of_find?_eq_some hfind
  exact ⟨hmem, by rw [hm], msb_busbar_eq_amps cfg hmem,
    by simpa using List.find?_some hfind⟩

/-- Witness for C10 (amended) at the 15-charger aggregation. -/
theorem c10_board_covers_diversified_witness :
    (⟨600, "800x400x300", (600 : ℚ)⟩ : MsbConfig) ∈ MSB_CONFIGS ∧
    ChargerSpecs.mAC7x15.recommendedMsbSize = (600 : ℚ) ∧
    ((⟨600, "800x400x300", (600 : ℚ)⟩ : MsbConfig).busbar = (600 : ℚ)) ∧
    ChargerSpecs.diversified_current ChargerSpecs.defaultParams
      [⟨38, 7, 15⟩] ≤ 600 :=
  c10_board_covers_diversified ChargerSpecs.defaultParams [⟨38, 7, 15⟩]
    ChargerSpecs.mAC7x15 ⟨600, "800x400x300", 600⟩ eval_cfg_513
    eval_msb_AC7x15

/-- Witness for C6 (amended) at the default parameters. -/
theorem c6_empty_aggregation_witness :
    ChargerSpecs.calculate_msb ChargerSpecs.defaultParams [] = some
      { totalConnectedLoad := 0, totalDeratedAcCurrent := 0,
        diversificationFactor := ChargerSpecs.defaultParams.diversity_factor,
        diversifiedCurrent := 0, mainBreakerSize := 6,
        recommendedMsbSize := 100, busbarRating := 0,
        msbDimensions := "300x200x150",
        msbConfiguration := "100A Main Switchboard" } :=
  c6_empty_aggregation ChargerSpecs.defaultParams
